import Mathlib

/-!
Shallow embedding of the HermesCRM multi-tenant CRM core
(`src/server/storage.ts` `MemStorage`/`DatabaseStorage`,
`src/server/routes.ts` password-recovery routes, and
`src/client/src/hooks/use-auth.tsx` `hasPermission`).

Conventions of the embedding:
* JS `Date` values are modelled as `Nat` millisecond timestamps; each mutating
  operation takes the current time `now : Nat` where the source calls `new Date()`.
* `Map<number, T>` (always keyed by the row's own `id` field in the source) is
  modelled as a `List T` in insertion order; `Map.get` is `find?` on the id,
  `Map.set` of an existing key is an in-place `map`, insertion of a fresh key is
  an append, `Map.delete` is a `filter`.
* Nullable columns (`string | null`) are `Option String`; `Partial<...>` update
  payloads are structures whose every field is an `Option` (absent = `none`).
* JS `string.toLowerCase()` is `String.map Char.toLower` and
  `a.includes(b)` is infix containment on the underlying character lists.
-/

namespace HermesCRM

/-- JS `a.includes(b)`: `b` occurs as a contiguous substring of `a`. -/
def strIncludes (s sub : String) : Bool :=
  decide (sub.data <:+: s.data)

/-- JS `s.toLowerCase()` (ASCII-faithful): lower-case every character. -/
def strToLower (s : String) : String :=
  ⟨s.data.map Char.toLower⟩

/-- Merge for an optional (nullable) column under a `Partial` update:
a field present in the update payload overrides, an absent one keeps the old value
(JS object-spread `{ ...old, ...update }`). -/
def mergeOpt (upd : Option α) (old : Option α) : Option α :=
  match upd with
  | some v => some v
  | none => old

/-- Merge for a non-nullable column under a `Partial` update. -/
def mergeStr (upd : Option α) (old : α) : α :=
  upd.getD old

/-- Row of the `users` table (`src/shared/schema.ts` plus the role/status/capability
columns used throughout `storage.ts`). -/
structure User where
  id : Nat
  username : String
  email : String
  password : String
  role : String
  status : String
  canAccessMaladireta : Bool
  canAccessEmailConfig : Bool
  resetToken : Option String
  resetTokenExpiry : Option Nat
  createdAt : Nat
  updatedAt : Nat
deriving DecidableEq

/-- Row of the `clients` table (`src/shared/schema.ts`). -/
structure Client where
  id : Nat
  name : String
  clientType : String
  cpfCnpj : Option String
  rgIe : Option String
  birthDate : Option String
  gender : Option String
  email : String
  landlinePhone : Option String
  mobilePhone : Option String
  website : Option String
  zipCode : Option String
  street : Option String
  number : Option String
  complement : Option String
  neighborhood : Option String
  city : Option String
  state : Option String
  country : Option String
  contactName : Option String
  contactPosition : Option String
  contactPhone : Option String
  contactEmail : Option String
  businessArea : Option String
  classification : Option String
  clientOrigin : Option String
  status : String
  notes : Option String
  preferences : Option String
  serviceHistory : Option String
  userId : Nat
  createdAt : Nat
  updatedAt : Nat
deriving DecidableEq

/-- Row of the `campaigns` table. -/
structure Campaign where
  id : Nat
  name : String
  type : String
  subject : Option String
  message : String
  userId : Nat
  createdAt : Nat
  updatedAt : Nat
deriving DecidableEq

/-- Row of the `email_configurations` table. -/
structure EmailConfiguration where
  id : Nat
  userId : Nat
  smtpHost : String
  smtpPort : Nat
  smtpSecure : Bool
  smtpUser : String
  smtpPass : String
  fromEmail : String
  fromName : Option String
  isActive : Bool
  createdAt : Nat
  updatedAt : Nat
deriving DecidableEq

/-- Embeds `Partial<InsertClient>` (the zod insert schema omits `id`, `userId`,
`createdAt`, `updatedAt`, so an update payload can never mention them). -/
structure ClientUpdate where
  name : Option String := none
  clientType : Option String := none
  cpfCnpj : Option String := none
  rgIe : Option String := none
  birthDate : Option String := none
  gender : Option String := none
  email : Option String := none
  landlinePhone : Option String := none
  mobilePhone : Option String := none
  website : Option String := none
  zipCode : Option String := none
  street : Option String := none
  number : Option String := none
  complement : Option String := none
  neighborhood : Option String := none
  city : Option String := none
  state : Option String := none
  country : Option String := none
  contactName : Option String := none
  contactPosition : Option String := none
  contactPhone : Option String := none
  contactEmail : Option String := none
  businessArea : Option String := none
  classification : Option String := none
  clientOrigin : Option String := none
  status : Option String := none
  notes : Option String := none
  preferences : Option String := none
  serviceHistory : Option String := none
deriving DecidableEq

/-- Embeds `Partial<InsertCampaign>` (insert schema omits `id`, `userId`, timestamps). -/
structure CampaignUpdate where
  name : Option String := none
  type : Option String := none
  subject : Option String := none
  message : Option String := none
deriving DecidableEq

/-- Embeds `Partial<InsertEmailConfiguration>` (insert schema omits `id`, `userId`,
timestamps). -/
structure EmailConfigurationUpdate where
  smtpHost : Option String := none
  smtpPort : Option Nat := none
  smtpSecure : Option Bool := none
  smtpUser : Option String := none
  smtpPass : Option String := none
  fromEmail : Option String := none
  fromName : Option String := none
  isActive : Option Bool := none
deriving DecidableEq

/-- Embeds the `InsertEmailConfiguration` payload accepted by `createEmailConfiguration`. -/
structure InsertEmailConfiguration where
  smtpHost : String
  smtpPort : Nat
  smtpSecure : Option Bool := none
  smtpUser : String
  smtpPass : String
  fromEmail : String
  fromName : Option String := none
  isActive : Option Bool := none
deriving DecidableEq

/-- The data the `/api/register` route hands to `createUser` (the insert schema
picks `username`/`password`; the register caller passes `email` through as well,
and `MemStorage.createUser` spreads it into the stored row). -/
structure InsertUserData where
  username : String
  email : String
  password : String
deriving DecidableEq

/-- Embeds `Partial<InsertUser>` for `updateUser` (username/password only). -/
structure UserUpdate where
  username : Option String := none
  password : Option String := none
deriving DecidableEq

/-- The whole `MemStorage` state: four id-keyed maps (as lists in insertion
order) and the four id counters. -/
structure MemStorage where
  users : List User := []
  clients : List Client := []
  campaigns : List Campaign := []
  emailConfigurations : List EmailConfiguration := []
  nextUserId : Nat := 1
  nextClientId : Nat := 1
  nextCampaignId : Nat := 1
  nextEmailConfigId : Nat := 1
deriving DecidableEq

/-- Embeds `hasPermission` from `src/client/src/hooks/use-auth.tsx`: `none` models a
missing (unauthenticated) `user`. -/
def hasPermission (user : Option User) (permission : String) : Bool :=
  match user with
  | none => false
  | some u =>
    if u.role = "admin" then true
    else if permission = "maladireta" then u.canAccessMaladireta
    else if permission = "emailConfig" then u.canAccessEmailConfig
    else if permission = "userManagement" then u.role = "admin"
    else false

/-- Embeds `MemStorage.getClient`: `this.clients.get(id)` then the ownership check. -/
def getClient (st : MemStorage) (id userId : Nat) : Option Client :=
  match st.clients.find? (fun c => c.id == id) with
  | some c => if c.userId == userId then some c else none
  | none => none

/-- Embeds `MemStorage.getCampaign`. -/
def getCampaign (st : MemStorage) (id userId : Nat) : Option Campaign :=
  match st.campaigns.find? (fun c => c.id == id) with
  | some c => if c.userId == userId then some c else none
  | none => none

/-- Embeds the merge `{ ...client, ...clientData, updatedAt: new Date() }`. -/
def applyClientUpdate (c : Client) (d : ClientUpdate) (now : Nat) : Client :=
  { c with
    name := mergeStr d.name c.name
    clientType := mergeStr d.clientType c.clientType
    cpfCnpj := mergeOpt d.cpfCnpj c.cpfCnpj
    rgIe := mergeOpt d.rgIe c.rgIe
    birthDate := mergeOpt d.birthDate c.birthDate
    gender := mergeOpt d.gender c.gender
    email := mergeStr d.email c.email
    landlinePhone := mergeOpt d.landlinePhone c.landlinePhone
    mobilePhone := mergeOpt d.mobilePhone c.mobilePhone
    website := mergeOpt d.website c.website
    zipCode := mergeOpt d.zipCode c.zipCode
    street := mergeOpt d.street c.street
    number := mergeOpt d.number c.number
    complement := mergeOpt d.complement c.complement
    neighborhood := mergeOpt d.neighborhood c.neighborhood
    city := mergeOpt d.city c.city
    state := mergeOpt d.state c.state
    country := mergeOpt d.country c.country
    contactName := mergeOpt d.contactName c.contactName
    contactPosition := mergeOpt d.contactPosition c.contactPosition
    contactPhone := mergeOpt d.contactPhone c.contactPhone
    contactEmail := mergeOpt d.contactEmail c.contactEmail
    businessArea := mergeOpt d.businessArea c.businessArea
    classification := mergeOpt d.classification c.classification
    clientOrigin := mergeOpt d.clientOrigin c.clientOrigin
    status := mergeStr d.status c.status
    notes := mergeOpt d.notes c.notes
    preferences := mergeOpt d.preferences c.preferences
    serviceHistory := mergeOpt d.serviceHistory c.serviceHistory
    updatedAt := now }

/-- Embeds `MemStorage.updateClient`: look up by id, check ownership, merge, store. -/
def updateClient (st : MemStorage) (id userId : Nat) (d : ClientUpdate)
    (now : Nat) : Option Client × MemStorage :=
  match st.clients.find? (fun c => c.id == id) with
  | none => (none, st)
  | some c =>
    if c.userId == userId then
      let updated := applyClientUpdate c d now
      (some updated,
       { st with clients := st.clients.map (fun x => if x.id == id then updated else x) })
    else (none, st)

/-- Embeds `MemStorage.deleteClient`: after the ownership check, `Map.delete` removes
the row and returns `true` (the key was just found). -/
def deleteClient (st : MemStorage) (id userId : Nat) : Bool × MemStorage :=
  match st.clients.find? (fun c => c.id == id) with
  | none => (false, st)
  | some c =>
    if c.userId == userId then
      (true, { st with clients := st.clients.filter (fun x => x.id != id) })
    else (false, st)

/-- Embeds the merge `{ ...campaign, ...campaignData, updatedAt: new Date() }`. -/
def applyCampaignUpdate (c : Campaign) (d : CampaignUpdate) (now : Nat) : Campaign :=
  { c with
    name := mergeStr d.name c.name
    type := mergeStr d.type c.type
    subject := mergeOpt d.subject c.subject
    message := mergeStr d.message c.message
    updatedAt := now }

/-- Embeds `MemStorage.updateCampaign`. -/
def updateCampaign (st : MemStorage) (id userId : Nat) (d : CampaignUpdate)
    (now : Nat) : Option Campaign × MemStorage :=
  match st.campaigns.find? (fun c => c.id == id) with
  | none => (none, st)
  | some c =>
    if c.userId == userId then
      let updated := applyCampaignUpdate c d now
      (some updated,
       { st with campaigns := st.campaigns.map (fun x => if x.id == id then updated else x) })
    else (none, st)

/-- Embeds `MemStorage.deleteCampaign`. -/
def deleteCampaign (st : MemStorage) (id userId : Nat) : Bool × MemStorage :=
  match st.campaigns.find? (fun c => c.id == id) with
  | none => (false, st)
  | some c =>
    if c.userId == userId then
      (true, { st with campaigns := st.campaigns.filter (fun x => x.id != id) })
    else (false, st)

/-- The search filter of `MemStorage.getClients`, applied with
`searchTerm = search.toLowerCase()`.  Note the source lowercases the row value
for name/email/cpfCnpj/city/businessArea but NOT for the two phone fields. -/
def clientMatches (searchTerm : String) (c : Client) : Bool :=
  strIncludes (strToLower c.name) searchTerm ||
  strIncludes (strToLower c.email) searchTerm ||
  (match c.cpfCnpj with
   | some v => strIncludes (strToLower v) searchTerm
   | none => false) ||
  (match c.mobilePhone with
   | some v => strIncludes v searchTerm
   | none => false) ||
  (match c.landlinePhone with
   | some v => strIncludes v searchTerm
   | none => false) ||
  (match c.city with
   | some v => strIncludes (strToLower v) searchTerm
   | none => false) ||
  (match c.businessArea with
   | some v => strIncludes (strToLower v) searchTerm
   | none => false)

/-- Descending-by-creation order used by
`.sort((a, b) => b.createdAt.getTime() - a.createdAt.getTime())`. -/
def byCreatedAtDesc (a b : Client) : Prop :=
  b.createdAt ≤ a.createdAt

instance : DecidableRel byCreatedAtDesc :=
  fun a b => Nat.decLe b.createdAt a.createdAt

instance : IsTotal Client byCreatedAtDesc :=
  ⟨fun a b => Nat.le_total b.createdAt a.createdAt⟩

instance : IsTrans Client byCreatedAtDesc :=
  ⟨fun _ _ _ hab hbc => Nat.le_trans hbc hab⟩

/-- Embeds `MemStorage.getClients`: the owner filter, the optional search filter
(JS `if (search)` skips it for `undefined` and for the empty string), then the
stable sort descending by creation timestamp. -/
def getClients (st : MemStorage) (userId : Nat) (search : Option String) :
    List Client :=
  let userClients := st.clients.filter (fun c => c.userId == userId)
  let filtered :=
    match search with
    | none => userClients
    | some s =>
      if s = "" then userClients
      else userClients.filter (clientMatches (strToLower s))
  filtered.insertionSort byCreatedAtDesc

/-- Embeds `MemStorage.getEmailConfiguration`: first active configuration of the user
in map order. -/
def getEmailConfiguration (st : MemStorage) (userId : Nat) :
    Option EmailConfiguration :=
  st.emailConfigurations.find? (fun c => c.userId == userId && c.isActive)

/-- Embeds `MemStorage.createEmailConfiguration`: deactivate all of the owner's
previous configurations, then insert the new row with `isActive: true` forced
(the literal after the spread overrides any client-supplied `isActive`). -/
def createEmailConfiguration (st : MemStorage) (d : InsertEmailConfiguration)
    (userId now : Nat) : EmailConfiguration × MemStorage :=
  let deactivated := st.emailConfigurations.map
    (fun c => if c.userId == userId then { c with isActive := false } else c)
  let cfg : EmailConfiguration :=
    { id := st.nextEmailConfigId
      userId := userId
      smtpHost := d.smtpHost
      smtpPort := d.smtpPort
      smtpSecure := d.smtpSecure.getD false
      smtpUser := d.smtpUser
      smtpPass := d.smtpPass
      fromEmail := d.fromEmail
      fromName := d.fromName
      isActive := true
      createdAt := now
      updatedAt := now }
  (cfg,
   { st with
     emailConfigurations := deactivated ++ [cfg]
     nextEmailConfigId := st.nextEmailConfigId + 1 })

/-- Embeds the merge `{ ...config, ...configData, updatedAt: new Date() }`. -/
def applyEmailConfigurationUpdate (c : EmailConfiguration)
    (d : EmailConfigurationUpdate) (now : Nat) : EmailConfiguration :=
  { c with
    smtpHost := mergeStr d.smtpHost c.smtpHost
    smtpPort := mergeStr d.smtpPort c.smtpPort
    smtpSecure := mergeStr d.smtpSecure c.smtpSecure
    smtpUser := mergeStr d.smtpUser c.smtpUser
    smtpPass := mergeStr d.smtpPass c.smtpPass
    fromEmail := mergeStr d.fromEmail c.fromEmail
    fromName := mergeOpt d.fromName c.fromName
    isActive := mergeStr d.isActive c.isActive
    updatedAt := now }

/-- Embeds `MemStorage.updateEmailConfiguration`. -/
def updateEmailConfiguration (st : MemStorage) (id userId : Nat)
    (d : EmailConfigurationUpdate) (now : Nat) :
    Option EmailConfiguration × MemStorage :=
  match st.emailConfigurations.find? (fun c => c.id == id) with
  | none => (none, st)
  | some c =>
    if c.userId == userId then
      let updated := applyEmailConfigurationUpdate c d now
      (some updated,
       { st with emailConfigurations :=
           st.emailConfigurations.map (fun x => if x.id == id then updated else x) })
    else (none, st)

/-- Embeds `MemStorage.createUser` (self-registration path): role `user`, status
`active`, both capability flags true, reset-token fields null. -/
def createUser (st : MemStorage) (d : InsertUserData) (now : Nat) :
    User × MemStorage :=
  let user : User :=
    { id := st.nextUserId
      username := d.username
      email := d.email
      password := d.password
      role := "user"
      status := "active"
      canAccessMaladireta := true
      canAccessEmailConfig := true
      resetToken := none
      resetTokenExpiry := none
      createdAt := now
      updatedAt := now }
  (user, { st with users := st.users ++ [user], nextUserId := st.nextUserId + 1 })

/-- Embeds `MemStorage.deleteUserById`: drop all clients, campaigns and email
configurations owned by `id`, then delete the user; `Map.delete` reports
whether the user row existed. -/
def deleteUserById (st : MemStorage) (id : Nat) : Bool × MemStorage :=
  (st.users.any (fun u => u.id == id),
   { st with
     users := st.users.filter (fun u => u.id != id)
     clients := st.clients.filter (fun c => c.userId != id)
     campaigns := st.campaigns.filter (fun c => c.userId != id)
     emailConfigurations := st.emailConfigurations.filter (fun c => c.userId != id) })

/-- Embeds `MemStorage.deleteAllUsersExceptAdmin`: per-user cascade via
`deleteUserById`, returning the number of ids visited. -/
def memDeleteAllUsersExceptAdmin (st : MemStorage) (adminId : Nat) :
    Nat × MemStorage :=
  let usersToDelete := (st.users.map (fun u => u.id)).filter (fun id => id != adminId)
  (usersToDelete.length,
   usersToDelete.foldl (fun acc id => (deleteUserById acc id).2) st)

/-- Embeds `DatabaseStorage.deleteAllUsersExceptAdmin`, over the same logical tables.
In the source, the child-row where-clause is
`eq(table.userId, userIds[0]) || (userIds.length > 1 ? or(...) : undefined)`;
since `eq(...)` is a truthy object, the JS `||` always yields its first operand,
so only rows of the FIRST selected id are cascaded.  The final
`delete(users).where(ne(users.id, adminId))` removes every other user and its
`rowCount` is returned. -/
def dbDeleteAllUsersExceptAdmin (st : MemStorage) (adminId : Nat) :
    Nat × MemStorage :=
  match (st.users.filter (fun u => u.id != adminId)).map (fun u => u.id) with
  | [] => (0, st)
  | firstId :: _ =>
    ((st.users.filter (fun u => u.id != adminId)).length,
     { st with
       users := st.users.filter (fun u => u.id == adminId)
       clients := st.clients.filter (fun c => c.userId != firstId)
       campaigns := st.campaigns.filter (fun c => c.userId != firstId)
       emailConfigurations := st.emailConfigurations.filter (fun c => c.userId != firstId) })

/-- Embeds `MemStorage.getUserByEmail`. -/
def getUserByEmail (st : MemStorage) (email : String) : Option User :=
  st.users.find? (fun u => u.email == email)

/-- Embeds `MemStorage.getUserByResetToken` (`user.resetToken === token`). -/
def getUserByResetToken (st : MemStorage) (token : String) : Option User :=
  st.users.find? (fun u => u.resetToken == some token)

/-- Embeds `MemStorage.setPasswordResetToken`. -/
def setPasswordResetToken (st : MemStorage) (userId : Nat) (token : String)
    (expiry now : Nat) : Option User × MemStorage :=
  match st.users.find? (fun u => u.id == userId) with
  | none => (none, st)
  | some u =>
    let updated := { u with resetToken := some token, resetTokenExpiry := some expiry,
                            updatedAt := now }
    (some updated,
     { st with users := st.users.map (fun x => if x.id == userId then updated else x) })

/-- Embeds `MemStorage.clearPasswordResetToken`. -/
def clearPasswordResetToken (st : MemStorage) (userId now : Nat) :
    Option User × MemStorage :=
  match st.users.find? (fun u => u.id == userId) with
  | none => (none, st)
  | some u =>
    let updated := { u with resetToken := none, resetTokenExpiry := none, updatedAt := now }
    (some updated,
     { st with users := st.users.map (fun x => if x.id == userId then updated else x) })

/-- Embeds `MemStorage.updateUser` (merge of a `Partial<InsertUser>`). -/
def updateUser (st : MemStorage) (id : Nat) (d : UserUpdate) (now : Nat) :
    Option User × MemStorage :=
  match st.users.find? (fun u => u.id == id) with
  | none => (none, st)
  | some u =>
    let updated := { u with username := mergeStr d.username u.username,
                            password := mergeStr d.password u.password,
                            updatedAt := now }
    (some updated,
     { st with users := st.users.map (fun x => if x.id == id then updated else x) })

/-- Caller-visible shape of the `POST /api/forgot-password` response. -/
inductive ForgotPasswordResponse where
  | missingEmail
  | success
  | noEmailConfig
deriving DecidableEq

/-- Embeds `POST /api/forgot-password` (`src/server/routes.ts`): `token` stands for the
random token the handler draws, and the `transporter.sendMail` call is modelled
as succeeding (its failure path is the generic 500 handler). -/
def forgotPassword (st : MemStorage) (email token : String) (now : Nat) :
    ForgotPasswordResponse × MemStorage :=
  if email = "" then (.missingEmail, st)
  else
    match getUserByEmail st email with
    | none => (.success, st)
    | some user =>
      let st1 := (setPasswordResetToken st user.id token (now + 3600000) now).2
      match getEmailConfiguration st1 user.id with
      | none => (.noEmailConfig, st1)
      | some _ => (.success, st1)

/-- Caller-visible shape of the `POST /api/reset-password` response. -/
inductive ResetPasswordResponse where
  | missingFields
  | invalidOrExpired
  | success
deriving DecidableEq

/-- Embeds `POST /api/reset-password` (`src/server/routes.ts`): `hash` stands for the
`hashPassword` collaborator. -/
def resetPassword (hash : String → String) (st : MemStorage)
    (token newPassword : String) (now : Nat) :
    ResetPasswordResponse × MemStorage :=
  if token = "" ∨ newPassword = "" then (.missingFields, st)
  else
    match getUserByResetToken st token with
    | none => (.invalidOrExpired, st)
    | some user =>
      match user.resetTokenExpiry with
      | none => (.invalidOrExpired, st)
      | some expiry =>
        if expiry < now then (.invalidOrExpired, st)
        else
          let hashed := hash newPassword
          let st1 := (updateUser st user.id { password := some hashed } now).2
          let st2 := (clearPasswordResetToken st1 user.id now).2
          (.success, st2)

/-- The matching predicate exactly as claim C9 words it: ALL seven searchable
fields (including the two phone fields) matched as case-insensitive substrings.
Stated from the claim, to be compared with `clientMatches` from the source. -/
def claimMatchesCI (searchTerm : String) (c : Client) : Bool :=
  strIncludes (strToLower c.name) searchTerm ||
  strIncludes (strToLower c.email) searchTerm ||
  (match c.cpfCnpj with
   | some v => strIncludes (strToLower v) searchTerm
   | none => false) ||
  (match c.mobilePhone with
   | some v => strIncludes (strToLower v) searchTerm
   | none => false) ||
  (match c.landlinePhone with
   | some v => strIncludes (strToLower v) searchTerm
   | none => false) ||
  (match c.city with
   | some v => strIncludes (strToLower v) searchTerm
   | none => false) ||
  (match c.businessArea with
   | some v => strIncludes (strToLower v) searchTerm
   | none => false)

/-- Fixture builder: a user row with the given identity and reset-token state. -/
def mkUser (id : Nat) (username email password role : String)
    (resetToken : Option String) (resetTokenExpiry : Option Nat) : User :=
  { id := id, username := username, email := email, password := password,
    role := role, status := "active", canAccessMaladireta := true,
    canAccessEmailConfig := true, resetToken := resetToken,
    resetTokenExpiry := resetTokenExpiry, createdAt := 0, updatedAt := 0 }

/-- Fixture builder: a client row with the schema defaults and the given
identity, owner, creation time and mobile phone. -/
def mkClient (id uid createdAt : Nat) (name email : String)
    (mobilePhone : Option String) : Client :=
  { id := id, name := name, clientType := "PF", cpfCnpj := none, rgIe := none,
    birthDate := none, gender := none, email := email, landlinePhone := none,
    mobilePhone := mobilePhone, website := none, zipCode := none, street := none,
    number := none, complement := none, neighborhood := none, city := none,
    state := none, country := some "Brasil", contactName := none,
    contactPosition := none, contactPhone := none, contactEmail := none,
    businessArea := none, classification := some "potencial", clientOrigin := none,
    status := "ativo", notes := none, preferences := none, serviceHistory := none,
    userId := uid, createdAt := createdAt, updatedAt := createdAt }

/-- Fixture builder: an email campaign row. -/
def mkCampaign (id uid : Nat) (name : String) : Campaign :=
  { id := id, name := name, type := "email", subject := none, message := "hello",
    userId := uid, createdAt := 0, updatedAt := 0 }

/-- Fixture builder: an email-configuration row. -/
def mkEmailConfiguration (id uid : Nat) (host : String) (isActive : Bool) :
    EmailConfiguration :=
  { id := id, userId := uid, smtpHost := host, smtpPort := 587, smtpSecure := false,
    smtpUser := "u", smtpPass := "p", fromEmail := "from@x.com", fromName := none,
    isActive := isActive, createdAt := 0, updatedAt := 0 }

/-- Fixture: a client and a campaign both owned by user 2 (user 1 is a
different tenant). -/
def fixtureC1 : MemStorage :=
  { users := [mkUser 1 "alice" "a@x.com" "h" "user" none none,
              mkUser 2 "bob" "b@x.com" "h" "user" none none],
    clients := [mkClient 1 2 0 "Acme" "a@acme.com" none],
    campaigns := [mkCampaign 1 2 "camp"],
    emailConfigurations := [],
    nextUserId := 3, nextClientId := 2, nextCampaignId := 2, nextEmailConfigId := 1 }

/-- Helper: in a list whose key projection is duplicate-free, any member whose
key equals the searched key is the element `find?` returns. -/
theorem eq_of_mem_of_find?_key {α : Type} (key : α → Nat) :
    ∀ (l : List α) (k : Nat) (c₀ x : α),
      l.find? (fun c => key c == k) = some c₀ → (l.map key).Nodup →
      x ∈ l → key x = k → x = c₀ := by
  intro l
  induction l with
  | nil => intro k c₀ x h _ hx _; simp at h
  | cons a t ih =>
    intro k c₀ x hfind hnodup hx hkey
    rw [List.map_cons, List.nodup_cons] at hnodup
    by_cases ha : key a = k
    · rw [List.find?_cons_of_pos t (by simp [ha])] at hfind
      cases hx with
      | head => exact Option.some.inj hfind
      | tail _ hxt =>
        have hmem : key a ∈ List.map key t := by
          rw [ha, ← hkey]; exact List.mem_map_of_mem key hxt
        exact absurd hmem hnodup.1
    · rw [List.find?_cons_of_neg t (by simp [ha])] at hfind
      cases hx with
      | head => exact absurd hkey ha
      | tail _ hxt => exact ih k c₀ x hfind hnodup.2 hxt hkey

/-- Helper: in a list whose key projection is duplicate-free, `find?` on a
member's key returns that member. -/
theorem find?_key_of_mem {α : Type} (key : α → Nat) :
    ∀ (l : List α) (u : α), u ∈ l → (l.map key).Nodup →
      l.find? (fun x => key x == key u) = some u := by
  intro l
  induction l with
  | nil => intro u hu; simp at hu
  | cons a t ih =>
    intro u hu hnd
    rw [List.map_cons, List.nodup_cons] at hnd
    cases hu with
    | head => exact List.find?_cons_of_pos t (by simp)
    | tail _ ht =>
      by_cases hk : key a = key u
      · exact absurd (hk ▸ List.mem_map_of_mem key ht) hnd.1
      · rw [List.find?_cons_of_neg t (by simp [hk])]
        exact ih u ht hnd.2

/-- C1: an ownership-scoped single-row read applied by tenant A to an id whose
stored row belongs to tenant B (A ≠ B) returns the not-found result, and the
scoped update and delete variants likewise report not-found / false, for
clients and for campaigns. -/
theorem c1_ownership_scoped_not_found
    (st : MemStorage) (A B cid gid now : Nat) (c₀ : Client) (g₀ : Campaign)
    (dc : ClientUpdate) (dg : CampaignUpdate)
    (hAB : A ≠ B)
    (hc : st.clients.find? (fun c => c.id == cid) = some c₀)
    (hcB : c₀.userId = B)
    (hg : st.campaigns.find? (fun c => c.id == gid) = some g₀)
    (hgB : g₀.userId = B) :
    getClient st cid A = none ∧
    (updateClient st cid A dc now).1 = none ∧
    (deleteClient st cid A).1 = false ∧
    getCampaign st gid A = none ∧
    (updateCampaign st gid A dg now).1 = none ∧
    (deleteCampaign st gid A).1 = false := by
  have hcA : (c₀.userId == A) = false := by
    rw [hcB]; exact beq_eq_false_iff_ne.mpr (Ne.symm hAB)
  have hgA : (g₀.userId == A) = false := by
    rw [hgB]; exact beq_eq_false_iff_ne.mpr (Ne.symm hAB)
  refine ⟨?_, ?_, ?_, ?_, ?_, ?_⟩ <;>
    simp [getClient, updateClient, deleteClient, getCampaign, updateCampaign,
          deleteCampaign, hc, hg, hcA, hgA]

/-- Witness for C1 at a concrete store: user 1 cannot read, update or delete
user 2's client and campaign. -/
theorem c1_witness :
    getClient fixtureC1 1 1 = none ∧
    (updateClient fixtureC1 1 1 {} 5).1 = none ∧
    (deleteClient fixtureC1 1 1).1 = false ∧
    getCampaign fixtureC1 1 1 = none ∧
    (updateCampaign fixtureC1 1 1 {} 5).1 = none ∧
    (deleteCampaign fixtureC1 1 1).1 = false :=
  c1_ownership_scoped_not_found fixtureC1 1 2 1 1 5
    (mkClient 1 2 0 "Acme" "a@acme.com" none) (mkCampaign 1 2 "camp") {} {}
    (by decide) (by decide) (by decide) (by decide) (by decide)

/-- C2: an authenticated admin passes `hasPermission` for every capability
string, whatever the two capability flags hold; an authenticated non-admin
fails every capability string outside the known set. -/
theorem c2_hasPermission_admin_true_unknown_false (u : User) (cap : String) :
    (u.role = "admin" → hasPermission (some u) cap = true) ∧
    (u.role ≠ "admin" → cap ≠ "maladireta" → cap ≠ "emailConfig" →
      cap ≠ "userManagement" → hasPermission (some u) cap = false) := by
  constructor
  · intro h
    simp [hasPermission, h]
  · intro h h1 h2 h3
    simp [hasPermission, h, h1, h2, h3]

/-- C3: creating an email configuration deactivates every row the owner had
and leaves exactly one active row for the owner, the newly inserted one. -/
theorem c3_createEmailConfiguration_single_active (st : MemStorage)
    (d : InsertEmailConfiguration) (uid now : Nat) :
    (∀ c ∈ st.emailConfigurations, c.userId = uid →
      ({ c with isActive := false } : EmailConfiguration) ∈
        (createEmailConfiguration st d uid now).2.emailConfigurations) ∧
    (createEmailConfiguration st d uid now).1.isActive = true ∧
    (createEmailConfiguration st d uid now).1.userId = uid ∧
    (createEmailConfiguration st d uid now).2.emailConfigurations.filter
        (fun c => c.userId == uid && c.isActive) =
      [(createEmailConfiguration st d uid now).1] := by
  refine ⟨?_, rfl, rfl, ?_⟩
  · intro c hc hcu
    refine List.mem_append_left _ ?_
    have hrw : ({ c with isActive := false } : EmailConfiguration) =
        (if c.userId == uid then { c with isActive := false } else c) := by
      simp [hcu]
    rw [hrw]
    exact List.mem_map_of_mem _ hc
  · show (List.map _ st.emailConfigurations ++
        [(createEmailConfiguration st d uid now).1]).filter _ = _
    rw [List.filter_append]
    have h1 : (st.emailConfigurations.map
        (fun c => if c.userId == uid then { c with isActive := false } else c)).filter
          (fun c => c.userId == uid && c.isActive) = [] := by
      rw [List.filter_eq_nil_iff]
      intro c hc
      obtain ⟨b, _, rfl⟩ := List.mem_map.mp hc
      by_cases hbu : b.userId = uid
      · simp [hbu]
      · simp [hbu]
    rw [h1]
    simp [createEmailConfiguration]

/-- C5: `deleteUserById` reports whether the account row existed, and the
resulting state holds no account row with that id and no client, campaign or
email-configuration row owned by it. -/
theorem c5_deleteUserById_cascades (st : MemStorage) (id : Nat) :
    ((deleteUserById st id).1 = true ↔ ∃ u ∈ st.users, u.id = id) ∧
    (∀ u ∈ (deleteUserById st id).2.users, u.id ≠ id) ∧
    (∀ c ∈ (deleteUserById st id).2.clients, c.userId ≠ id) ∧
    (∀ c ∈ (deleteUserById st id).2.campaigns, c.userId ≠ id) ∧
    (∀ c ∈ (deleteUserById st id).2.emailConfigurations, c.userId ≠ id) := by
  refine ⟨?_, ?_, ?_, ?_, ?_⟩
  · simp [deleteUserById, List.any_eq_true]
  all_goals
    intro x hx
    simp only [deleteUserById, List.mem_filter] at hx
    simpa using hx.2

/-- C8 counterexample: the value `createUser` returns carries the stored
password hash in its `password` field (nothing is stripped at the storage
layer), refuting the final conjunct of the claim at a concrete input. -/
theorem c8_counterexample :
    (createUser ({} : MemStorage)
      ({ username := "alice", email := "alice@x.com", password := "hash1" } :
        InsertUserData) 0).1.password = "hash1" := rfl

/-- C8 amended: self-registration always produces role `user`, status
`active` and both capability flags true, for every input, and echoes the
supplied identity; the returned record does contain the password hash. -/
theorem c8_createUser_defaults (st : MemStorage) (d : InsertUserData) (now : Nat) :
    (createUser st d now).1.role = "user" ∧
    (createUser st d now).1.status = "active" ∧
    (createUser st d now).1.canAccessMaladireta = true ∧
    (createUser st d now).1.canAccessEmailConfig = true ∧
    (createUser st d now).1.username = d.username ∧
    (createUser st d now).1.email = d.email ∧
    (createUser st d now).1.password = d.password :=
  ⟨rfl, rfl, rfl, rfl, rfl, rfl, rfl⟩

/-- C10: the three partial-update operations never change any stored row's id
or owner: the id/owner projection of each table is invariant (assuming the
id keys are duplicate-free, as `Map` keying guarantees). -/
theorem c10_update_preserves_id_and_owner
    (st : MemStorage) (id uid now : Nat) (dc : ClientUpdate) (dg : CampaignUpdate)
    (de : EmailConfigurationUpdate)
    (h1 : (st.clients.map (fun c => c.id)).Nodup)
    (h2 : (st.campaigns.map (fun c => c.id)).Nodup)
    (h3 : (st.emailConfigurations.map (fun c => c.id)).Nodup) :
    (updateClient st id uid dc now).2.clients.map (fun c => (c.id, c.userId)) =
      st.clients.map (fun c => (c.id, c.userId)) ∧
    (updateCampaign st id uid dg now).2.campaigns.map (fun c => (c.id, c.userId)) =
      st.campaigns.map (fun c => (c.id, c.userId)) ∧
    (updateEmailConfiguration st id uid de now).2.emailConfigurations.map
        (fun c => (c.id, c.userId)) =
      st.emailConfigurations.map (fun c => (c.id, c.userId)) := by
  refine ⟨?_, ?_, ?_⟩
  · rcases hfind : st.clients.find? (fun c => c.id == id) with _ | c₀
    · simp [updateClient, hfind]
    · by_cases hown : (c₀.userId == uid) = true
      · simp only [updateClient, hfind, hown, if_true]
        rw [List.map_map]
        apply List.map_congr_left
        intro x hx
        by_cases hid : (x.id == id) = true
        · have hx_eq : x = c₀ :=
            eq_of_mem_of_find?_key (fun c => c.id) st.clients id c₀ x hfind h1 hx
              (by simpa using hid)
          subst hx_eq
          simp [Function.comp, hid, applyClientUpdate]
        · simp [Function.comp, hid]
      · simp [updateClient, hfind, hown]
  · rcases hfind : st.campaigns.find? (fun c => c.id == id) with _ | c₀
    · simp [updateCampaign, hfind]
    · by_cases hown : (c₀.userId == uid) = true
      · simp only [updateCampaign, hfind, hown, if_true]
        rw [List.map_map]
        apply List.map_congr_left
        intro x hx
        by_cases hid : (x.id == id) = true
        · have hx_eq : x = c₀ :=
            eq_of_mem_of_find?_key (fun c => c.id) st.campaigns id c₀ x hfind h2 hx
              (by simpa using hid)
          subst hx_eq
          simp [Function.comp, hid, applyCampaignUpdate]
        · simp [Function.comp, hid]
      · simp [updateCampaign, hfind, hown]
  · rcases hfind : st.emailConfigurations.find? (fun c => c.id == id) with _ | c₀
    · simp [updateEmailConfiguration, hfind]
    · by_cases hown : (c₀.userId == uid) = true
      · simp only [updateEmailConfiguration, hfind, hown, if_true]
        rw [List.map_map]
        apply List.map_congr_left
        intro x hx
        by_cases hid : (x.id == id) = true
        · have hx_eq : x = c₀ :=
            eq_of_mem_of_find?_key (fun c => c.id) st.emailConfigurations id c₀ x
              hfind h3 hx (by simpa using hid)
          subst hx_eq
          simp [Function.comp, hid, applyEmailConfigurationUpdate]
        · simp [Function.comp, hid]
      · simp [updateEmailConfiguration, hfind, hown]

/-- Witness for C10 at a concrete store: updating user 2's client, campaign
and email configuration leaves every row's id/owner pair unchanged. -/
theorem c10_witness :
    (updateClient fixtureC1 1 2 {} 5).2.clients.map (fun c => (c.id, c.userId)) =
      fixtureC1.clients.map (fun c => (c.id, c.userId)) ∧
    (updateCampaign fixtureC1 1 2 {} 5).2.campaigns.map (fun c => (c.id, c.userId)) =
      fixtureC1.campaigns.map (fun c => (c.id, c.userId)) ∧
    (updateEmailConfiguration fixtureC1 1 2 {} 5).2.emailConfigurations.map
        (fun c => (c.id, c.userId)) =
      fixtureC1.emailConfigurations.map (fun c => (c.id, c.userId)) :=
  c10_update_preserves_id_and_owner fixtureC1 1 2 5 {} {} {}
    (by decide) (by decide) (by decide)

/-- Fixture: an admin (id 1) plus two plain users (ids 2 and 3), each of the
two owning one client row. -/
def fixtureC4 : MemStorage :=
  { users := [mkUser 1 "admin" "ad@x.com" "h" "admin" none none,
              mkUser 2 "bob" "b@x.com" "h" "user" none none,
              mkUser 3 "carol" "c@x.com" "h" "user" none none],
    clients := [mkClient 10 2 0 "AcmeB" "b@acme.com" none,
                mkClient 11 3 0 "AcmeC" "c@acme.com" none],
    campaigns := [], emailConfigurations := [],
    nextUserId := 4, nextClientId := 12, nextCampaignId := 1, nextEmailConfigId := 1 }

/-- C4: evaluating `DatabaseStorage.deleteAllUsersExceptAdmin` at the fixture
shows the bug: both non-admin users are removed and the count is right, but
the cascade only reaches the first removed user's rows, so user 3's client
row (11, owned by 3) is left orphaned.  The `MemStorage` variant cascades per
user and leaves no orphan at the same input. -/
theorem c4_db_cascade_misses_later_users :
    (dbDeleteAllUsersExceptAdmin fixtureC4 1).1 = 2 ∧
    (dbDeleteAllUsersExceptAdmin fixtureC4 1).2.users.map (fun u => u.id) = [1] ∧
    (dbDeleteAllUsersExceptAdmin fixtureC4 1).2.clients.map
        (fun c => (c.id, c.userId)) = [(11, 3)] ∧
    (memDeleteAllUsersExceptAdmin fixtureC4 1).1 = 2 ∧
    (memDeleteAllUsersExceptAdmin fixtureC4 1).2.clients = [] := by
  decide

/-- Fixture: one client of user 1 whose only content searchable by "a" is an
upper-case mobile-phone value. -/
def fixtureC9 : MemStorage :=
  { clients := [mkClient 1 1 0 "x" "y" (some "A")], nextClientId := 2 }

/-- C9 counterexample: the stored client's mobile phone "A" contains the query
"A" case-insensitively (the claim's reading), yet `getClients` omits the row,
because the source compares the raw phone value with the lowercased query. -/
theorem c9_counterexample :
    claimMatchesCI (strToLower "A") (mkClient 1 1 0 "x" "y" (some "A")) = true ∧
    (mkClient 1 1 0 "x" "y" (some "A")).userId = 1 ∧
    mkClient 1 1 0 "x" "y" (some "A") ∈ fixtureC9.clients ∧
    getClients fixtureC9 1 (some "A") = [] := by
  decide

/-- C9 amended: for a non-empty search string, `getClients` returns exactly
the owner's rows accepted by the source's matcher — name, email, tax id, city
and business area case-insensitively, the two phone fields by case-sensitive
containment of the lowercased query — ordered descending by creation
timestamp; with no search string it returns all the owner's rows in that
order. -/
theorem c9_getClients_spec (st : MemStorage) (uid : Nat) (s : String)
    (hs : s ≠ "") :
    ((getClients st uid (some s)).Perm
      (st.clients.filter
        (fun c => clientMatches (strToLower s) c && c.userId == uid)) ∧
     (getClients st uid (some s)).Pairwise byCreatedAtDesc) ∧
    ((getClients st uid none).Perm (st.clients.filter (fun c => c.userId == uid)) ∧
     (getClients st uid none).Pairwise byCreatedAtDesc) := by
  refine ⟨⟨?_, ?_⟩, ?_, ?_⟩
  · have h := List.perm_insertionSort byCreatedAtDesc
      ((st.clients.filter (fun c => c.userId == uid)).filter
        (clientMatches (strToLower s)))
    rw [List.filter_filter] at h
    simpa [getClients, hs] using h
  · have h := List.sorted_insertionSort byCreatedAtDesc
      ((st.clients.filter (fun c => c.userId == uid)).filter
        (clientMatches (strToLower s)))
    simpa [getClients, hs, List.Sorted] using h
  · simpa [getClients] using List.perm_insertionSort byCreatedAtDesc
      (st.clients.filter (fun c => c.userId == uid))
  · simpa [getClients, List.Sorted] using List.sorted_insertionSort byCreatedAtDesc
      (st.clients.filter (fun c => c.userId == uid))

/-- Witness for C9 at a concrete store and the non-empty query "x". -/
theorem c9_witness :
    ((getClients fixtureC9 1 (some "x")).Perm
      (fixtureC9.clients.filter
        (fun c => clientMatches (strToLower "x") c && c.userId == 1)) ∧
     (getClients fixtureC9 1 (some "x")).Pairwise byCreatedAtDesc) ∧
    ((getClients fixtureC9 1 none).Perm
      (fixtureC9.clients.filter (fun c => c.userId == 1)) ∧
     (getClients fixtureC9 1 none).Pairwise byCreatedAtDesc) :=
  c9_getClients_spec fixtureC9 1 "x" (by decide)

/-- Helper: setting a password-reset token never touches the
email-configuration table. -/
theorem setPasswordResetToken_configs (st : MemStorage) (uid : Nat) (t : String)
    (e n : Nat) :
    (setPasswordResetToken st uid t e n).2.emailConfigurations =
      st.emailConfigurations := by
  unfold setPasswordResetToken
  cases st.users.find? (fun u => u.id == uid) <;> rfl

/-- C6 counterexample: when the supplied email belongs to a stored account
that has no active email configuration, the route answers with the
configuration error, while an unknown email gets the success shape — the two
responses differ, revealing that the first email exists. -/
theorem c6_counterexample :
    (forgotPassword
      { users := [mkUser 1 "alice" "a@x.com" "h" "user" none none],
        nextUserId := 2 } "a@x.com" "tok" 0).1 =
      ForgotPasswordResponse.noEmailConfig ∧
    (forgotPassword
      { users := [mkUser 1 "alice" "a@x.com" "h" "user" none none],
        nextUserId := 2 } "b@x.com" "tok" 0).1 =
      ForgotPasswordResponse.success ∧
    ForgotPasswordResponse.noEmailConfig ≠ ForgotPasswordResponse.success := by
  decide

/-- C6 amended: the password-reset request gives the same success shape for an
existing and for a non-existent email whenever the existing account has an
active email configuration; an existing account without one receives a
distinct error response instead. -/
theorem c6_forgot_password_same_success_shape
    (st : MemStorage) (e1 e2 token : String) (now : Nat)
    (u : User) (cfg : EmailConfiguration)
    (h1 : e1 ≠ "") (h2 : e2 ≠ "")
    (hu : getUserByEmail st e1 = some u)
    (hcfg : getEmailConfiguration st u.id = some cfg)
    (hn : getUserByEmail st e2 = none) :
    (forgotPassword st e1 token now).1 = ForgotPasswordResponse.success ∧
    (forgotPassword st e2 token now).1 = ForgotPasswordResponse.success := by
  constructor
  · have hcfg1 : getEmailConfiguration
        (setPasswordResetToken st u.id token (now + 3600000) now).2 u.id =
          some cfg := by
      unfold getEmailConfiguration
      rw [setPasswordResetToken_configs]
      exact hcfg
    simp [forgotPassword, h1, hu, hcfg1]
  · simp [forgotPassword, h2, hn]

/-- Fixture: an account with an active email configuration. -/
def fixtureC6w : MemStorage :=
  { users := [mkUser 1 "alice" "a@x.com" "h" "user" none none],
    emailConfigurations := [mkEmailConfiguration 1 1 "smtp.x.com" true],
    nextUserId := 2, nextEmailConfigId := 2 }

/-- Witness for C6 at a concrete store with an active configuration: both the
existing and the unknown email get the success shape. -/
theorem c6_witness :
    (forgotPassword fixtureC6w "a@x.com" "tok" 0).1 =
      ForgotPasswordResponse.success ∧
    (forgotPassword fixtureC6w "b@x.com" "tok" 0).1 =
      ForgotPasswordResponse.success :=
  c6_forgot_password_same_success_shape fixtureC6w "a@x.com" "b@x.com" "tok" 0
    (mkUser 1 "alice" "a@x.com" "h" "user" none none)
    (mkEmailConfiguration 1 1 "smtp.x.com" true)
    (by decide) (by decide) (by decide) (by decide) (by decide)

/-- Helper: replacing the rows at one id with a row carrying that same id
keeps the id projection of a user list. -/
theorem user_replace_ids (l : List User) (k : Nat) (r : User) (hr : r.id = k) :
    (l.map (fun x => if x.id == k then r else x)).map (fun x => x.id) =
      l.map (fun x => x.id) := by
  rw [List.map_map]
  apply List.map_congr_left
  intro x hx
  by_cases h : (x.id == k) = true
  · simp only [Function.comp_apply, h, if_true]
    rw [hr]
    exact (eq_of_beq h).symm
  · simp [Function.comp, h]

/-- Helper: the replacement row is a member of the replaced user list when a
row carrying the replaced id is. -/
theorem user_mem_replace (l : List User) (k : Nat) (r w : User)
    (hw : w ∈ l) (hwk : w.id = k) :
    r ∈ l.map (fun x => if x.id == k then r else x) :=
  List.mem_map.mpr ⟨w, hw, by simp [hwk]⟩

/-- Helper: the user table after `updateUser` is the in-place merge at the
found row. -/
theorem updateUser_users (st : MemStorage) (id : Nat) (d : UserUpdate)
    (now : Nat) (w : User)
    (hw : st.users.find? (fun x => x.id == id) = some w) :
    (updateUser st id d now).2.users =
      st.users.map (fun x => if x.id == id then
        { w with username := mergeStr d.username w.username,
                 password := mergeStr d.password w.password,
                 updatedAt := now } else x) := by
  simp only [updateUser, hw]

/-- Helper: the user table after `clearPasswordResetToken` is the in-place
clearing of the found row. -/
theorem clearPasswordResetToken_users (st : MemStorage) (id now : Nat) (w : User)
    (hw : st.users.find? (fun x => x.id == id) = some w) :
    (clearPasswordResetToken st id now).2.users =
      st.users.map (fun x => if x.id == id then
        { w with resetToken := none, resetTokenExpiry := none,
                 updatedAt := now } else x) := by
  simp only [clearPasswordResetToken, hw]

/-- C7: resetting the password fails with the invalid-or-expired error for an
unknown token and for an expired one; for a valid, unexpired token it
succeeds, stores the new hash with the token fields cleared, and a second
attempt with the same token then fails. -/
theorem c7_reset_password (hash : String → String) (st : MemStorage)
    (token newPassword : String) (now : Nat) (u : User) (e : Nat)
    (htok : token ≠ "") (hpw : newPassword ≠ "")
    (hfind : getUserByResetToken st token = some u)
    (hexp : u.resetTokenExpiry = some e)
    (hnow : now ≤ e)
    (hids : (st.users.map (fun x => x.id)).Nodup)
    (huniq : ∀ v ∈ st.users, v.resetToken = some token → v.id = u.id) :
    (∀ t2, t2 ≠ "" → getUserByResetToken st t2 = none →
      (resetPassword hash st t2 newPassword now).1 =
        ResetPasswordResponse.invalidOrExpired) ∧
    (∀ t3 v3 e3, t3 ≠ "" → getUserByResetToken st t3 = some v3 →
      v3.resetTokenExpiry = some e3 → e3 < now →
      (resetPassword hash st t3 newPassword now).1 =
        ResetPasswordResponse.invalidOrExpired) ∧
    (resetPassword hash st token newPassword now).1 =
      ResetPasswordResponse.success ∧
    ((resetPassword hash st token newPassword now).2.users.find?
        (fun x => x.id == u.id) =
      some { u with password := hash newPassword, resetToken := none,
                    resetTokenExpiry := none, updatedAt := now }) ∧
    (resetPassword hash (resetPassword hash st token newPassword now).2
        token newPassword now).1 = ResetPasswordResponse.invalidOrExpired := by
  have hnotmf : ¬(token = "" ∨ newPassword = "") := by
    rintro (h | h)
    · exact htok h
    · exact hpw h
  have hu_mem : u ∈ st.users := List.mem_of_find?_eq_some hfind
  have hfind_id : st.users.find? (fun x => x.id == u.id) = some u :=
    find?_key_of_mem (fun x => x.id) st.users u hu_mem hids
  have hrun : resetPassword hash st token newPassword now =
      (ResetPasswordResponse.success,
       (clearPasswordResetToken
         (updateUser st u.id { password := some (hash newPassword) } now).2
         u.id now).2) := by
    simp only [resetPassword, hfind, hexp, if_neg hnotmf,
               if_neg (Nat.not_lt.mpr hnow)]
  have hsnd : (resetPassword hash st token newPassword now).2 =
      (clearPasswordResetToken
        (updateUser st u.id { password := some (hash newPassword) } now).2
        u.id now).2 := by
    rw [hrun]
  have hst1 : (updateUser st u.id { password := some (hash newPassword) } now).2.users
      = st.users.map (fun x => if x.id == u.id then
          { u with username := mergeStr none u.username,
                   password := mergeStr (some (hash newPassword)) u.password,
                   updatedAt := now } else x) :=
    updateUser_users st u.id _ now u hfind_id
  have hids1 : ((updateUser st u.id { password := some (hash newPassword) } now).2.users.map
      (fun x => x.id)) = st.users.map (fun x => x.id) := by
    rw [hst1]
    exact user_replace_ids st.users u.id _ rfl
  have hmem1 : ({ u with
      username := mergeStr none u.username,
      password := mergeStr (some (hash newPassword)) u.password,
      updatedAt := now } : User) ∈
      (updateUser st u.id { password := some (hash newPassword) } now).2.users := by
    rw [hst1]
    exact user_mem_replace st.users u.id _ u hu_mem rfl
  have hfind1 : (updateUser st u.id { password := some (hash newPassword) } now).2.users.find?
      (fun x => x.id == u.id) =
        some { u with
          username := mergeStr none u.username,
          password := mergeStr (some (hash newPassword)) u.password,
          updatedAt := now } := by
    have hnd1 : ((updateUser st u.id { password := some (hash newPassword) } now).2.users.map
        (fun x => x.id)).Nodup := by
      rw [hids1]; exact hids
    exact find?_key_of_mem (fun x => x.id) _ _ hmem1 hnd1
  have hst2 : (clearPasswordResetToken
      (updateUser st u.id { password := some (hash newPassword) } now).2
      u.id now).2.users
      = st.users.map (fun x => if x.id == u.id then
          { u with password := hash newPassword, resetToken := none,
                   resetTokenExpiry := none, updatedAt := now } else x) := by
    rw [clearPasswordResetToken_users _ u.id now _ hfind1, hst1, List.map_map]
    apply List.map_congr_left
    intro z hz
    by_cases hzid : (z.id == u.id) = true
    · simp [Function.comp, hzid, mergeStr]
    · simp [Function.comp, hzid]
  have hids2 : ((clearPasswordResetToken
      (updateUser st u.id { password := some (hash newPassword) } now).2
      u.id now).2.users.map (fun x => x.id)) = st.users.map (fun x => x.id) := by
    rw [hst2]
    exact user_replace_ids st.users u.id _ rfl
  have hmem2 : ({ u with
      password := hash newPassword,
      resetToken := none,
      resetTokenExpiry := none,
      updatedAt := now } : User) ∈
      (clearPasswordResetToken
        (updateUser st u.id { password := some (hash newPassword) } now).2
        u.id now).2.users := by
    rw [hst2]
    exact user_mem_replace st.users u.id _ u hu_mem rfl
  have hnone : getUserByResetToken
      (clearPasswordResetToken
        (updateUser st u.id { password := some (hash newPassword) } now).2
        u.id now).2 token = none := by
    unfold getUserByResetToken
    rw [List.find?_eq_none]
    intro x hx
    rw [hst2] at hx
    obtain ⟨z, hz, rfl⟩ := List.mem_map.mp hx
    by_cases hzid : (z.id == u.id) = true
    · simp [hzid]
    · simp only [hzid, Bool.false_eq_true, if_false]
      simp only [beq_iff_eq, ne_eq]
      intro hcon
      exact hzid (by simp [huniq z hz hcon])
  refine ⟨?_, ?_, ?_, ?_, ?_⟩
  · intro t2 ht2 hnone2
    have hn : ¬(t2 = "" ∨ newPassword = "") := by
      rintro (h | h)
      · exact ht2 h
      · exact hpw h
    simp [resetPassword, if_neg hn, hnone2]
  · intro t3 v3 e3 ht3 hfind3 hexp3 hlt3
    have hn : ¬(t3 = "" ∨ newPassword = "") := by
      rintro (h | h)
      · exact ht3 h
      · exact hpw h
    simp [resetPassword, if_neg hn, hfind3, hexp3, if_pos hlt3]
  · rw [hrun]
  · rw [hsnd]
    have hnd2 : ((clearPasswordResetToken
        (updateUser st u.id { password := some (hash newPassword) } now).2
        u.id now).2.users.map (fun x => x.id)).Nodup := by
      rw [hids2]; exact hids
    exact find?_key_of_mem (fun x => x.id) _ _ hmem2 hnd2
  · rw [hsnd]
    simp [resetPassword, if_neg hnotmf, hnone]

/-- Fixture: one user holding the unexpired reset token "tok" (expiry 10). -/
def fixtureC7 : MemStorage :=
  { users := [mkUser 1 "alice" "a@x.com" "old" "user" (some "tok") (some 10)],
    nextUserId := 2 }

/-- Witness for C7 at a concrete store and time 5: the stated behavior of the
reset route at the token "tok". -/
theorem c7_witness :
    (∀ t2, t2 ≠ "" → getUserByResetToken fixtureC7 t2 = none →
      (resetPassword (fun s => String.append s "#") fixtureC7 t2 "np" 5).1 =
        ResetPasswordResponse.invalidOrExpired) ∧
    (∀ t3 v3 e3, t3 ≠ "" → getUserByResetToken fixtureC7 t3 = some v3 →
      v3.resetTokenExpiry = some e3 → e3 < 5 →
      (resetPassword (fun s => String.append s "#") fixtureC7 t3 "np" 5).1 =
        ResetPasswordResponse.invalidOrExpired) ∧
    (resetPassword (fun s => String.append s "#") fixtureC7 "tok" "np" 5).1 =
      ResetPasswordResponse.success ∧
    ((resetPassword (fun s => String.append s "#") fixtureC7 "tok" "np" 5).2.users.find?
        (fun x => x.id == (mkUser 1 "alice" "a@x.com" "old" "user" (some "tok")
          (some 10)).id) =
      some { mkUser 1 "alice" "a@x.com" "old" "user" (some "tok") (some 10) with
        password := String.append "np" "#",
        resetToken := none,
        resetTokenExpiry := none,
        updatedAt := 5 }) ∧
    (resetPassword (fun s => String.append s "#")
        (resetPassword (fun s => String.append s "#") fixtureC7 "tok" "np" 5).2
        "tok" "np" 5).1 = ResetPasswordResponse.invalidOrExpired :=
  c7_reset_password (fun s => String.append s "#") fixtureC7 "tok" "np" 5
    (mkUser 1 "alice" "a@x.com" "old" "user" (some "tok") (some 10)) 10
    (by decide) (by decide) (by decide) (by decide) (by decide) (by decide)
    (by decide)

end HermesCRM
